import Mathlib

/-!
# Configuration loading of temporal-mcp (`internal/config/config.go`)

A shallow embedding of `LoadConfig` and `applyEnvOverrides`.

Modelling conventions.

* A Go `string` is a Lean `String`; a Go `[]byte` is a list of bytes, and the
  conversion `[]byte(s)` is the UTF-8 encoding of `s`.
* The process environment is a lookup `String → Option String` (`none` for an
  unset variable); `os.Getenv` returns `""` for an unset variable.
* The file system is what `os.ReadFile` answers for each path: the contents, or
  an error on which `os.IsNotExist` can be asked.
* `yaml.Unmarshal` and `strings.ToLower` are library functions outside the
  repository; `LoadConfig` is embedded for an arbitrary pair of them (`Lib`).
* A Go `(*Config, error)` result is an `Except LoadError Config`.
-/

namespace TemporalMcp

/-! ## Data model (config.go, lines 11-40) -/

/-- A Go map with string keys: the nil map, or an allocated map with its entries. -/
inductive GoMap (α : Type) where
  | nil : GoMap α
  | alloc (entries : List (String × α)) : GoMap α
  deriving DecidableEq, Repr

/-- The builtin `len` on a map: the nil map has no entries. -/
def GoMap.len {α : Type} : GoMap α → Nat
  | .nil => 0
  | .alloc entries => entries.length

/-- The struct `ParameterDef`: input/output schema for a workflow. -/
structure ParameterDef where
  Type_ : String
  Fields : List (List (String × String))
  Description : String
  deriving DecidableEq, Repr

/-- The struct `WorkflowDef`: a Temporal workflow exposed as a tool. -/
structure WorkflowDef where
  Purpose : String
  Input : ParameterDef
  Output : ParameterDef
  TaskQueue : String
  WorkflowIDRecipe : String
  deriving DecidableEq, Repr

/-- The struct `TemporalConfig`: connection settings for the Temporal service. -/
structure TemporalConfig where
  HostPort : String
  Namespace : String
  Environment : String
  Timeout : String
  DefaultTaskQueue : String
  deriving DecidableEq, Repr

/-- The struct `Config`: the top-level configuration. -/
structure Config where
  Temporal : TemporalConfig
  Workflows : GoMap WorkflowDef
  deriving DecidableEq, Repr

/-- The zero value of `TemporalConfig`: every field is the empty string. -/
def TemporalConfig.zero : TemporalConfig :=
  { HostPort := "", Namespace := "", Environment := "", Timeout := "", DefaultTaskQueue := "" }

/-- The zero value of `Config`, as declared by `var cfg Config` (line 55). -/
def Config.zero : Config :=
  { Temporal := TemporalConfig.zero, Workflows := GoMap.nil }

/-- The literal `Config{Workflows: make(map[string]WorkflowDef)}` (lines 74-76). -/
def Config.minimal : Config :=
  { Temporal := TemporalConfig.zero, Workflows := GoMap.alloc [] }

/-! ## The world outside the package -/

/-- Raw file or payload contents. -/
abbrev Bytes := List UInt8

/-- The conversion `[]byte(s)`: the UTF-8 bytes of the string. -/
def bytesOf (s : String) : Bytes := s.toUTF8.data.toList

/-- The process environment: `none` is an unset variable. -/
abbrev Env := String → Option String

/-- The call `os.Getenv`: the value of the variable, `""` when it is unset. -/
def Getenv (env : Env) (key : String) : String := (env key).getD ""

/-- An error of the `os` package, with the answer `os.IsNotExist` gives on it. -/
structure OsError where
  msg : String
  notExist : Bool
  deriving DecidableEq, Repr

/-- The call `os.IsNotExist`. -/
def IsNotExist (err : OsError) : Bool := err.notExist

/-- An error of the YAML decoder. -/
structure YamlError where
  msg : String
  deriving DecidableEq, Repr

/-- The file system as seen through `os.ReadFile`: contents or an error, per path.
A file that does not exist fails at opening, where `os.ReadFile` returns nil data
with the error, so an error carries no data here. -/
abbrev FileSystem := String → Except OsError Bytes

/-- The library functions `LoadConfig` calls: `yaml.Unmarshal(data, &cfg)`, which
decodes into an existing value, and `strings.ToLower`. -/
structure Lib where
  Unmarshal : Bytes → Config → Except YamlError Config
  ToLower : String → String

/-- The three errors `LoadConfig` builds with `fmt.Errorf` (lines 78, 86, 95). -/
inductive LoadError where
  | readFailed (configPath : String) (err : OsError) : LoadError
  | parseFailed (err : YamlError) : LoadError
  | hostPortRequired : LoadError
  deriving DecidableEq, Repr

/-- The text of the error, as formatted by `fmt.Errorf`. -/
def LoadError.Error : LoadError → String
  | .readFailed configPath err => "failed to read config file " ++ configPath ++ ": " ++ err.msg
  | .parseFailed err => "failed to parse config YAML: " ++ err.msg
  | .hostPortRequired =>
      "temporal hostPort is required (set via config or TEMPORAL_HOST_PORT env var)"

/-- An error wrapped with `%w`: one of the `os` package or one of the decoder. -/
inductive Cause where
  | os (err : OsError) : Cause
  | yaml (err : YamlError) : Cause
  deriving DecidableEq, Repr

/-- The error wrapped with `%w`, if any, as `errors.Unwrap` returns it. -/
def LoadError.Unwrap : LoadError → Option Cause
  | .readFailed _ err => some (.os err)
  | .parseFailed err => some (.yaml err)
  | .hostPortRequired => none

/-! ## `applyEnvOverrides` (lines 102-131) -/

/-- The statement at lines 104-108: the address. -/
def overrideHostPort (env : Env) (cfg : Config) : Config :=
  let hostPort := Getenv env "TEMPORAL_HOST_PORT"
  if hostPort ≠ "" then { cfg with Temporal := { cfg.Temporal with HostPort := hostPort } }
  else if cfg.Temporal.HostPort = "" then
    { cfg with Temporal := { cfg.Temporal with HostPort := "localhost:7233" } }
  else cfg

/-- The statement at lines 110-114: the namespace. -/
def overrideNamespace (env : Env) (cfg : Config) : Config :=
  let namespace_ := Getenv env "TEMPORAL_NAMESPACE"
  if namespace_ ≠ "" then { cfg with Temporal := { cfg.Temporal with Namespace := namespace_ } }
  else if cfg.Temporal.Namespace = "" then
    { cfg with Temporal := { cfg.Temporal with Namespace := "default" } }
  else cfg

/-- The statement at lines 116-120: the environment name, lower-cased when it
comes from the variable. -/
def overrideEnvironment (lib : Lib) (env : Env) (cfg : Config) : Config :=
  let environment := Getenv env "TEMPORAL_ENVIRONMENT"
  if environment ≠ "" then
    { cfg with Temporal := { cfg.Temporal with Environment := lib.ToLower environment } }
  else if cfg.Temporal.Environment = "" then
    { cfg with Temporal := { cfg.Temporal with Environment := "local" } }
  else cfg

/-- The statement at lines 122-126: the timeout. -/
def overrideTimeout (env : Env) (cfg : Config) : Config :=
  let timeout := Getenv env "TEMPORAL_TIMEOUT"
  if timeout ≠ "" then { cfg with Temporal := { cfg.Temporal with Timeout := timeout } }
  else if cfg.Temporal.Timeout = "" then
    { cfg with Temporal := { cfg.Temporal with Timeout := "5s" } }
  else cfg

/-- The statement at lines 128-130: the default task queue, which has no default. -/
def overrideDefaultTaskQueue (env : Env) (cfg : Config) : Config :=
  let taskQueue := Getenv env "TEMPORAL_DEFAULT_TASK_QUEUE"
  if taskQueue ≠ "" then
    { cfg with Temporal := { cfg.Temporal with DefaultTaskQueue := taskQueue } }
  else cfg

/-- The function `applyEnvOverrides`: its five statements, run in order on the
configuration. -/
def applyEnvOverrides (lib : Lib) (env : Env) (cfg : Config) : Config :=
  let cfg := overrideHostPort env cfg
  let cfg := overrideNamespace env cfg
  let cfg := overrideEnvironment lib env cfg
  let cfg := overrideTimeout env cfg
  overrideDefaultTaskQueue env cfg

/-! ## `LoadConfig` (lines 54-99) -/

/-- The path `LoadConfig` reads when there is no inline configuration
(lines 64-67): `TEMPORAL_MCP_CONFIG_FILE` when non-empty, else the argument. -/
def configPath (env : Env) (path : String) : String :=
  let envPath := Getenv env "TEMPORAL_MCP_CONFIG_FILE"
  if envPath ≠ "" then envPath else path

/-- Source selection (lines 59-81): the configuration so far and the raw data, or
the read error. -/
def selectSource (env : Env) (fs : FileSystem) (path : String) :
    Except LoadError (Config × Bytes) :=
  let configYAML := Getenv env "TEMPORAL_MCP_CONFIG"
  if configYAML ≠ "" then .ok (Config.zero, bytesOf configYAML)
  else
    match fs (configPath env path) with
    | .ok data => .ok (Config.zero, data)
    | .error err =>
      if IsNotExist err && Getenv env "TEMPORAL_MCP_CONFIG" == "" then
        .ok (Config.minimal, [])
      else .error (.readFailed (configPath env path) err)

/-- Parsing (lines 83-88): the YAML decoder runs only on non-empty data. -/
def parseData (lib : Lib) (cfg : Config) (data : Bytes) : Except LoadError Config :=
  if data.length > 0 then
    match lib.Unmarshal data cfg with
    | .error err => .error (.parseFailed err)
    | .ok cfg => .ok cfg
  else .ok cfg

/-- Validation of the required setting (lines 93-98). -/
def validateHostPort (cfg : Config) : Except LoadError Config :=
  if cfg.Temporal.HostPort = "" then .error .hostPortRequired else .ok cfg

/-- The function `LoadConfig`: select the source, parse, apply the environment
overrides, validate. -/
def LoadConfig (lib : Lib) (env : Env) (fs : FileSystem) (path : String) :
    Except LoadError Config :=
  match selectSource env fs path with
  | .error e => .error e
  | .ok (cfg, data) =>
    match parseData lib cfg data with
    | .error e => .error e
    | .ok cfg => validateHostPort (applyEnvOverrides lib env cfg)

/-! ## Concrete environments, file systems and libraries used in the examples -/

/-- The environment with no variable set. -/
def emptyEnv : Env := fun _ => none

/-- Setting one variable in an environment. -/
def setenv (env : Env) (key value : String) : Env :=
  fun k => if k = key then some value else env k

/-- A file system with no file at all: every read fails with a not-exist error. -/
def noFiles : FileSystem :=
  fun _ => .error { msg := "no such file or directory", notExist := true }

/-- A file system where every path holds the given contents. -/
def constFiles (data : Bytes) : FileSystem := fun _ => .ok data

/-- A file system with a single file: reading any other path fails with a
not-exist error. -/
def singleFile (name : String) (data : Bytes) : FileSystem :=
  fun p =>
    if p = name then .ok data
    else .error { msg := "no such file or directory", notExist := true }

/-- A file system where every read is denied. -/
def deniedFiles : FileSystem :=
  fun _ => .error { msg := "permission denied", notExist := false }

/-- Lower-casing of the ASCII letters, as `strings.ToLower` does on ASCII text. -/
def asciiToLower (s : String) : String := String.mk (s.data.map Char.toLower)

/-- A configuration with one workflow and a partly filled connection. -/
def sampleConfig : Config :=
  { Temporal :=
      { HostPort := "temporal.internal:7233", Namespace := "", Environment := "Production",
        Timeout := "", DefaultTaskQueue := "orders" }
    Workflows := GoMap.alloc
      [("ProcessOrder",
        { Purpose := "Processes an order"
          Input := { Type_ := "object", Fields := [[("orderId", "string")]], Description := "" }
          Output := { Type_ := "string", Fields := [], Description := "" }
          TaskQueue := "orders"
          WorkflowIDRecipe := "order-" })] }

/-- A library whose decoder accepts every payload and decodes it to `c`. -/
def decodesTo (c : Config) : Lib :=
  { Unmarshal := fun _ _ => .ok c, ToLower := asciiToLower }

/-- A library whose decoder rejects every payload. -/
def rejecting : Lib :=
  { Unmarshal := fun _ _ => .error { msg := "yaml: did not find expected node content" },
    ToLower := asciiToLower }

/-! ## Shared lemmas -/

/-- The value `os.Getenv` gives for an unset variable. -/
theorem Getenv_unset (env : Env) (key : String) (h : env key = none) : Getenv env key = "" := by
  simp [Getenv, h]

/-- The value `os.Getenv` gives for a set variable. -/
theorem Getenv_set (env : Env) (key v : String) (h : env key = some v) : Getenv env key = v := by
  simp [Getenv, h]

/-- The connection settings after the statement on the address. -/
theorem overrideHostPort_Temporal (env : Env) (cfg : Config) :
    (overrideHostPort env cfg).Temporal =
      { cfg.Temporal with
        HostPort :=
          if Getenv env "TEMPORAL_HOST_PORT" ≠ "" then Getenv env "TEMPORAL_HOST_PORT"
          else if cfg.Temporal.HostPort ≠ "" then cfg.Temporal.HostPort
          else "localhost:7233" } := by
  unfold overrideHostPort
  split_ifs <;> simp_all

/-- The connection settings after the statement on the namespace. -/
theorem overrideNamespace_Temporal (env : Env) (cfg : Config) :
    (overrideNamespace env cfg).Temporal =
      { cfg.Temporal with
        Namespace :=
          if Getenv env "TEMPORAL_NAMESPACE" ≠ "" then Getenv env "TEMPORAL_NAMESPACE"
          else if cfg.Temporal.Namespace ≠ "" then cfg.Temporal.Namespace
          else "default" } := by
  unfold overrideNamespace
  split_ifs <;> simp_all

/-- The connection settings after the statement on the environment name. -/
theorem overrideEnvironment_Temporal (lib : Lib) (env : Env) (cfg : Config) :
    (overrideEnvironment lib env cfg).Temporal =
      { cfg.Temporal with
        Environment :=
          if Getenv env "TEMPORAL_ENVIRONMENT" ≠ "" then
            lib.ToLower (Getenv env "TEMPORAL_ENVIRONMENT")
          else if cfg.Temporal.Environment ≠ "" then cfg.Temporal.Environment
          else "local" } := by
  unfold overrideEnvironment
  split_ifs <;> simp_all

/-- The connection settings after the statement on the timeout. -/
theorem overrideTimeout_Temporal (env : Env) (cfg : Config) :
    (overrideTimeout env cfg).Temporal =
      { cfg.Temporal with
        Timeout :=
          if Getenv env "TEMPORAL_TIMEOUT" ≠ "" then Getenv env "TEMPORAL_TIMEOUT"
          else if cfg.Temporal.Timeout ≠ "" then cfg.Temporal.Timeout
          else "5s" } := by
  unfold overrideTimeout
  split_ifs <;> simp_all

/-- The connection settings after the statement on the default task queue. -/
theorem overrideDefaultTaskQueue_Temporal (env : Env) (cfg : Config) :
    (overrideDefaultTaskQueue env cfg).Temporal =
      { cfg.Temporal with
        DefaultTaskQueue :=
          if Getenv env "TEMPORAL_DEFAULT_TASK_QUEUE" ≠ "" then
            Getenv env "TEMPORAL_DEFAULT_TASK_QUEUE"
          else cfg.Temporal.DefaultTaskQueue } := by
  unfold overrideDefaultTaskQueue
  split_ifs <;> simp_all

/-- The statement on the address leaves the workflows alone. -/
theorem overrideHostPort_Workflows (env : Env) (cfg : Config) :
    (overrideHostPort env cfg).Workflows = cfg.Workflows := by
  simp only [overrideHostPort]
  split_ifs <;> rfl

/-- The statement on the namespace leaves the workflows alone. -/
theorem overrideNamespace_Workflows (env : Env) (cfg : Config) :
    (overrideNamespace env cfg).Workflows = cfg.Workflows := by
  simp only [overrideNamespace]
  split_ifs <;> rfl

/-- The statement on the environment name leaves the workflows alone. -/
theorem overrideEnvironment_Workflows (lib : Lib) (env : Env) (cfg : Config) :
    (overrideEnvironment lib env cfg).Workflows = cfg.Workflows := by
  simp only [overrideEnvironment]
  split_ifs <;> rfl

/-- The statement on the timeout leaves the workflows alone. -/
theorem overrideTimeout_Workflows (env : Env) (cfg : Config) :
    (overrideTimeout env cfg).Workflows = cfg.Workflows := by
  simp only [overrideTimeout]
  split_ifs <;> rfl

/-- The statement on the default task queue leaves the workflows alone. -/
theorem overrideDefaultTaskQueue_Workflows (env : Env) (cfg : Config) :
    (overrideDefaultTaskQueue env cfg).Workflows = cfg.Workflows := by
  simp only [overrideDefaultTaskQueue]
  split_ifs <;> rfl

/-- The connection settings after `applyEnvOverrides`, field by field. -/
theorem applyEnvOverrides_Temporal (lib : Lib) (env : Env) (cfg : Config) :
    (applyEnvOverrides lib env cfg).Temporal =
      { HostPort :=
          if Getenv env "TEMPORAL_HOST_PORT" ≠ "" then Getenv env "TEMPORAL_HOST_PORT"
          else if cfg.Temporal.HostPort ≠ "" then cfg.Temporal.HostPort
          else "localhost:7233"
        Namespace :=
          if Getenv env "TEMPORAL_NAMESPACE" ≠ "" then Getenv env "TEMPORAL_NAMESPACE"
          else if cfg.Temporal.Namespace ≠ "" then cfg.Temporal.Namespace
          else "default"
        Environment :=
          if Getenv env "TEMPORAL_ENVIRONMENT" ≠ "" then
            lib.ToLower (Getenv env "TEMPORAL_ENVIRONMENT")
          else if cfg.Temporal.Environment ≠ "" then cfg.Temporal.Environment
          else "local"
        Timeout :=
          if Getenv env "TEMPORAL_TIMEOUT" ≠ "" then Getenv env "TEMPORAL_TIMEOUT"
          else if cfg.Temporal.Timeout ≠ "" then cfg.Temporal.Timeout
          else "5s"
        DefaultTaskQueue :=
          if Getenv env "TEMPORAL_DEFAULT_TASK_QUEUE" ≠ "" then
            Getenv env "TEMPORAL_DEFAULT_TASK_QUEUE"
          else cfg.Temporal.DefaultTaskQueue } := by
  simp only [applyEnvOverrides, overrideHostPort_Temporal, overrideNamespace_Temporal,
    overrideEnvironment_Temporal, overrideTimeout_Temporal, overrideDefaultTaskQueue_Temporal]

/-- The workflows are untouched by `applyEnvOverrides`. -/
theorem applyEnvOverrides_Workflows (lib : Lib) (env : Env) (cfg : Config) :
    (applyEnvOverrides lib env cfg).Workflows = cfg.Workflows := by
  simp only [applyEnvOverrides, overrideHostPort_Workflows, overrideNamespace_Workflows,
    overrideEnvironment_Workflows, overrideTimeout_Workflows, overrideDefaultTaskQueue_Workflows]

/-- The address after `applyEnvOverrides`. -/
theorem applyEnvOverrides_HostPort (lib : Lib) (env : Env) (cfg : Config) :
    (applyEnvOverrides lib env cfg).Temporal.HostPort =
      if Getenv env "TEMPORAL_HOST_PORT" ≠ "" then Getenv env "TEMPORAL_HOST_PORT"
      else if cfg.Temporal.HostPort ≠ "" then cfg.Temporal.HostPort
      else "localhost:7233" := by
  rw [applyEnvOverrides_Temporal]

/-- The address is never empty after `applyEnvOverrides`. -/
theorem applyEnvOverrides_HostPort_ne (lib : Lib) (env : Env) (cfg : Config) :
    (applyEnvOverrides lib env cfg).Temporal.HostPort ≠ "" := by
  rw [applyEnvOverrides_HostPort]
  split_ifs with h1 h2
  · exact h1
  · exact h2
  · decide

/-- Two environments that agree on the five connection variables give the same
defaulting pass. -/
theorem applyEnvOverrides_congr (lib : Lib) (env₁ env₂ : Env) (cfg : Config)
    (h1 : env₁ "TEMPORAL_HOST_PORT" = env₂ "TEMPORAL_HOST_PORT")
    (h2 : env₁ "TEMPORAL_NAMESPACE" = env₂ "TEMPORAL_NAMESPACE")
    (h3 : env₁ "TEMPORAL_ENVIRONMENT" = env₂ "TEMPORAL_ENVIRONMENT")
    (h4 : env₁ "TEMPORAL_TIMEOUT" = env₂ "TEMPORAL_TIMEOUT")
    (h5 : env₁ "TEMPORAL_DEFAULT_TASK_QUEUE" = env₂ "TEMPORAL_DEFAULT_TASK_QUEUE") :
    applyEnvOverrides lib env₁ cfg = applyEnvOverrides lib env₂ cfg := by
  have hT : (applyEnvOverrides lib env₁ cfg).Temporal =
      (applyEnvOverrides lib env₂ cfg).Temporal := by
    rw [applyEnvOverrides_Temporal, applyEnvOverrides_Temporal]
    simp only [Getenv, h1, h2, h3, h4, h5]
  have hW : (applyEnvOverrides lib env₁ cfg).Workflows =
      (applyEnvOverrides lib env₂ cfg).Workflows := by
    rw [applyEnvOverrides_Workflows, applyEnvOverrides_Workflows]
  cases hc₁ : applyEnvOverrides lib env₁ cfg
  cases hc₂ : applyEnvOverrides lib env₂ cfg
  rw [hc₁, hc₂] at hT hW
  simp only at hT hW
  rw [hT, hW]

/-- The bytes of a non-empty string are non-empty. -/
theorem bytesOf_length_pos (s : String) (h : s ≠ "") : 0 < (bytesOf s).length := by
  obtain ⟨cs⟩ := s
  cases cs with
  | nil => exact absurd rfl h
  | cons c cs =>
    have hc : 0 < (String.utf8EncodeChar c).length := by
      rw [String.length_utf8EncodeChar]
      exact Char.utf8Size_pos c
    simp only [bytesOf, String.toUTF8, List.flatMap_cons, List.length_append]
    omega

/-- The validation always passes on the outcome of the defaulting pass. -/
theorem validateHostPort_applyEnvOverrides (lib : Lib) (env : Env) (cfg : Config) :
    validateHostPort (applyEnvOverrides lib env cfg) = .ok (applyEnvOverrides lib env cfg) := by
  unfold validateHostPort
  rw [if_neg (applyEnvOverrides_HostPort_ne lib env cfg)]

/-- The result of `LoadConfig` on an inline configuration. -/
theorem LoadConfig_inline (lib : Lib) (env : Env) (fs : FileSystem) (path : String)
    (h : Getenv env "TEMPORAL_MCP_CONFIG" ≠ "") :
    LoadConfig lib env fs path =
      match lib.Unmarshal (bytesOf (Getenv env "TEMPORAL_MCP_CONFIG")) Config.zero with
      | .error err => .error (.parseFailed err)
      | .ok c => .ok (applyEnvOverrides lib env c) := by
  have hlen := bytesOf_length_pos _ h
  simp only [LoadConfig, selectSource, if_pos h, parseData, gt_iff_lt, if_pos hlen]
  cases lib.Unmarshal (bytesOf (Getenv env "TEMPORAL_MCP_CONFIG")) Config.zero with
  | error err => rfl
  | ok c => exact validateHostPort_applyEnvOverrides lib env c

/-- The result of `LoadConfig` without an inline configuration, by the outcome of
reading the file at `configPath`. -/
theorem LoadConfig_file (lib : Lib) (env : Env) (fs : FileSystem) (path : String)
    (h : Getenv env "TEMPORAL_MCP_CONFIG" = "") :
    LoadConfig lib env fs path =
      match fs (configPath env path) with
      | .ok data =>
        if data.length > 0 then
          match lib.Unmarshal data Config.zero with
          | .error err => .error (.parseFailed err)
          | .ok c => .ok (applyEnvOverrides lib env c)
        else .ok (applyEnvOverrides lib env Config.zero)
      | .error err =>
        if IsNotExist err then .ok (applyEnvOverrides lib env Config.minimal)
        else .error (.readFailed (configPath env path) err) := by
  simp only [LoadConfig, selectSource, h, ne_eq, not_true_eq_false, if_false]
  cases fs (configPath env path) with
  | ok data =>
    simp only [parseData]
    by_cases hd : data.length > 0
    · simp only [if_pos hd]
      cases lib.Unmarshal data Config.zero with
      | error err => rfl
      | ok c => exact validateHostPort_applyEnvOverrides lib env c
    · simp only [if_neg hd]
      exact validateHostPort_applyEnvOverrides lib env Config.zero
  | error err =>
    by_cases hn : IsNotExist err = true
    · simp [hn, parseData, validateHostPort_applyEnvOverrides]
    · simp [hn]

/-- Two environments on which `os.Getenv` agrees give the same defaulting pass. -/
theorem applyEnvOverrides_congr_Getenv (lib : Lib) (env₁ env₂ : Env) (cfg : Config)
    (h : ∀ k, Getenv env₁ k = Getenv env₂ k) :
    applyEnvOverrides lib env₁ cfg = applyEnvOverrides lib env₂ cfg := by
  have hT : (applyEnvOverrides lib env₁ cfg).Temporal =
      (applyEnvOverrides lib env₂ cfg).Temporal := by
    rw [applyEnvOverrides_Temporal, applyEnvOverrides_Temporal]
    simp only [h]
  have hW : (applyEnvOverrides lib env₁ cfg).Workflows =
      (applyEnvOverrides lib env₂ cfg).Workflows := by
    rw [applyEnvOverrides_Workflows, applyEnvOverrides_Workflows]
  cases hc₁ : applyEnvOverrides lib env₁ cfg
  cases hc₂ : applyEnvOverrides lib env₂ cfg
  rw [hc₁, hc₂] at hT hW
  simp only at hT hW
  rw [hT, hW]

/-- The result of `LoadConfig` depends on the environment through `os.Getenv` only. -/
theorem LoadConfig_congr_Getenv (lib : Lib) (env₁ env₂ : Env) (fs : FileSystem)
    (path : String) (h : ∀ k, Getenv env₁ k = Getenv env₂ k) :
    LoadConfig lib env₁ fs path = LoadConfig lib env₂ fs path := by
  have happly : applyEnvOverrides lib env₁ = applyEnvOverrides lib env₂ :=
    funext fun cfg => applyEnvOverrides_congr_Getenv lib env₁ env₂ cfg h
  have hpath : configPath env₁ path = configPath env₂ path := by
    simp only [configPath, h]
  by_cases hinline : Getenv env₁ "TEMPORAL_MCP_CONFIG" = ""
  · have hinline₂ : Getenv env₂ "TEMPORAL_MCP_CONFIG" = "" := by rw [← h]; exact hinline
    rw [LoadConfig_file lib env₁ fs path hinline, LoadConfig_file lib env₂ fs path hinline₂,
      happly, hpath]
  · have hinline₂ : Getenv env₂ "TEMPORAL_MCP_CONFIG" ≠ "" := by rw [← h]; exact hinline
    rw [LoadConfig_inline lib env₁ fs path hinline,
      LoadConfig_inline lib env₂ fs path hinline₂, happly, h]

/-- ASCII lower-casing keeps a non-empty string non-empty. -/
theorem asciiToLower_ne (s : String) (h : s ≠ "") : asciiToLower s ≠ "" := by
  intro hempty
  apply h
  have hdata : (asciiToLower s).data = [] := by rw [hempty]
  simp only [asciiToLower, List.map_eq_nil_iff] at hdata
  exact String.ext hdata

/-- The read error is returned exactly when there is no inline configuration and the
read of the file at `configPath` fails with an error other than not-exist. -/
theorem LoadConfig_readFailed_iff (lib : Lib) (env : Env) (fs : FileSystem) (path : String)
    (p : String) (cause : OsError) :
    LoadConfig lib env fs path = .error (.readFailed p cause) ↔
      Getenv env "TEMPORAL_MCP_CONFIG" = "" ∧ p = configPath env path ∧
        fs (configPath env path) = .error cause ∧ IsNotExist cause = false := by
  by_cases hinline : Getenv env "TEMPORAL_MCP_CONFIG" = ""
  · rw [LoadConfig_file lib env fs path hinline]
    cases hread : fs (configPath env path) with
    | ok data =>
      simp only
      by_cases hd : data.length > 0
      · simp only [if_pos hd]
        cases lib.Unmarshal data Config.zero <;> simp
      · simp [if_neg hd]
    | error err =>
      by_cases hn : IsNotExist err = true
      · simp only [hn, if_true]
        constructor
        · intro hc; cases hc
        · rintro ⟨_, _, hcause, hfalse⟩
          cases hcause
          rw [hn] at hfalse
          cases hfalse
      · have hn' : IsNotExist err = false := by simpa using hn
        simp only [hn', Bool.false_eq_true, if_false]
        constructor
        · intro hc
          cases hc
          exact ⟨hinline, rfl, rfl, hn'⟩
        · rintro ⟨_, hp, hcause, _⟩
          cases hcause
          rw [hp]
  · rw [LoadConfig_inline lib env fs path hinline]
    cases lib.Unmarshal (bytesOf (Getenv env "TEMPORAL_MCP_CONFIG")) Config.zero <;>
      simp [hinline]

/-- Every configuration `LoadConfig` returns is the outcome of `applyEnvOverrides` on
what the decoder produced from a non-empty payload, or on a configuration without
workflows when nothing was decoded. -/
theorem LoadConfig_ok_cases (lib : Lib) (env : Env) (fs : FileSystem) (path : String)
    (r : Config) (h : LoadConfig lib env fs path = .ok r) :
    (∃ data parsed,
        ((Getenv env "TEMPORAL_MCP_CONFIG" ≠ "" ∧
            data = bytesOf (Getenv env "TEMPORAL_MCP_CONFIG")) ∨
          (Getenv env "TEMPORAL_MCP_CONFIG" = "" ∧ fs (configPath env path) = .ok data)) ∧
        data ≠ [] ∧ lib.Unmarshal data Config.zero = .ok parsed ∧
        r = applyEnvOverrides lib env parsed) ∨
      (Getenv env "TEMPORAL_MCP_CONFIG" = "" ∧ fs (configPath env path) = .ok [] ∧
        r = applyEnvOverrides lib env Config.zero) ∨
      (Getenv env "TEMPORAL_MCP_CONFIG" = "" ∧
        (∃ err, fs (configPath env path) = .error err ∧ IsNotExist err = true) ∧
        r = applyEnvOverrides lib env Config.minimal) := by
  by_cases hinline : Getenv env "TEMPORAL_MCP_CONFIG" = ""
  · rw [LoadConfig_file lib env fs path hinline] at h
    cases hread : fs (configPath env path) with
    | ok data =>
      rw [hread] at h
      simp only at h
      by_cases hd : data.length > 0
      · rw [if_pos hd] at h
        cases hparse : lib.Unmarshal data Config.zero with
        | error yerr => rw [hparse] at h; cases h
        | ok c =>
          rw [hparse] at h
          cases h
          exact Or.inl ⟨data, c, Or.inr ⟨hinline, rfl⟩, List.length_pos.mp hd, hparse, rfl⟩
      · rw [if_neg hd] at h
        cases h
        have hnil : data = [] := by
          cases data with
          | nil => rfl
          | cons b bs => exact absurd (Nat.succ_pos _) hd
        rw [hnil]
        exact Or.inr (Or.inl ⟨hinline, rfl, rfl⟩)
    | error err =>
      rw [hread] at h
      simp only at h
      by_cases hn : IsNotExist err = true
      · rw [if_pos hn] at h
        cases h
        exact Or.inr (Or.inr ⟨hinline, ⟨err, rfl, hn⟩, rfl⟩)
      · rw [if_neg hn] at h
        cases h
  · rw [LoadConfig_inline lib env fs path hinline] at h
    cases hparse : lib.Unmarshal (bytesOf (Getenv env "TEMPORAL_MCP_CONFIG")) Config.zero with
    | error yerr => rw [hparse] at h; cases h
    | ok c =>
      rw [hparse] at h
      cases h
      exact Or.inl ⟨_, c, Or.inl ⟨hinline, rfl⟩,
        List.length_pos.mp (bytesOf_length_pos _ hinline), hparse, rfl⟩

/-- The namespace, the timeout and, for a lower-casing that keeps non-empty strings
non-empty, the environment name are non-empty after `applyEnvOverrides`. -/
theorem applyEnvOverrides_nonempty (lib : Lib) (env : Env) (cfg : Config) :
    (applyEnvOverrides lib env cfg).Temporal.Namespace ≠ "" ∧
      (applyEnvOverrides lib env cfg).Temporal.Timeout ≠ "" ∧
      ((∀ s, s ≠ "" → lib.ToLower s ≠ "") →
        (applyEnvOverrides lib env cfg).Temporal.Environment ≠ "") := by
  rw [applyEnvOverrides_Temporal]
  refine ⟨?_, ?_, ?_⟩
  · simp only
    split_ifs with h1 h2
    · exact h1
    · exact h2
    · decide
  · simp only
    split_ifs with h1 h2
    · exact h1
    · exact h2
    · decide
  · intro hlower
    simp only
    split_ifs with h1 h2
    · exact hlower _ h1
    · exact h2
    · decide

/-! ## The defaulting pass: precedence of override, parsed value and default -/

/-- C1: after `applyEnvOverrides` the address is the value of `TEMPORAL_HOST_PORT`
when that is non-empty, otherwise the parsed address when that is non-empty,
otherwise `"localhost:7233"`; a variable set to the empty string does not replace
a non-empty parsed address. -/
theorem C1_address_precedence (lib : Lib) (env : Env) (cfg : Config) :
    (applyEnvOverrides lib env cfg).Temporal.HostPort =
        (if Getenv env "TEMPORAL_HOST_PORT" ≠ "" then Getenv env "TEMPORAL_HOST_PORT"
         else if cfg.Temporal.HostPort ≠ "" then cfg.Temporal.HostPort
         else "localhost:7233") ∧
      (env "TEMPORAL_HOST_PORT" = some "" → cfg.Temporal.HostPort ≠ "" →
        (applyEnvOverrides lib env cfg).Temporal.HostPort = cfg.Temporal.HostPort) := by
  refine ⟨applyEnvOverrides_HostPort lib env cfg, fun hset hne => ?_⟩
  rw [applyEnvOverrides_HostPort, Getenv_set env _ _ hset]
  simp [hne]

/-- C1 at a concrete input: `TEMPORAL_HOST_PORT` set to the empty string keeps the
parsed address `"temporal.internal:7233"`. -/
theorem C1_address_precedence_witness :
    (applyEnvOverrides rejecting (setenv emptyEnv "TEMPORAL_HOST_PORT" "")
      { Config.zero with
        Temporal := { TemporalConfig.zero with HostPort := "temporal.internal:7233" } }
      ).Temporal.HostPort = "temporal.internal:7233" :=
  (C1_address_precedence rejecting (setenv emptyEnv "TEMPORAL_HOST_PORT" "")
    { Config.zero with
      Temporal := { TemporalConfig.zero with HostPort := "temporal.internal:7233" } }).2
    (by simp [setenv]) (by decide)

/-- C2: after `applyEnvOverrides` the environment name is the lower-cased value of
`TEMPORAL_ENVIRONMENT` when that is non-empty, otherwise the parsed value exactly
as parsed when that is non-empty, otherwise `"local"`. -/
theorem C2_environment_precedence (lib : Lib) (env : Env) (cfg : Config) :
    (applyEnvOverrides lib env cfg).Temporal.Environment =
      (if Getenv env "TEMPORAL_ENVIRONMENT" ≠ "" then
         lib.ToLower (Getenv env "TEMPORAL_ENVIRONMENT")
       else if cfg.Temporal.Environment ≠ "" then cfg.Temporal.Environment
       else "local") := by
  rw [applyEnvOverrides_Temporal]

/-- C2 at concrete inputs: a parsed `"Production"` stays `"Production"` without the
variable, and `TEMPORAL_ENVIRONMENT=Production` gives `"production"`. -/
theorem C2_environment_precedence_witness :
    (applyEnvOverrides rejecting emptyEnv
        { Config.zero with
          Temporal := { TemporalConfig.zero with Environment := "Production" } }
        ).Temporal.Environment = "Production" ∧
      (applyEnvOverrides rejecting (setenv emptyEnv "TEMPORAL_ENVIRONMENT" "Production")
        Config.zero).Temporal.Environment = "production" := by
  constructor
  · rw [C2_environment_precedence]
    decide
  · rw [C2_environment_precedence]
    decide

/-- C3: after `applyEnvOverrides` the namespace and the timeout are the override
when non-empty, else the parsed value when non-empty, else `"default"` and `"5s"`;
the default task queue is the override when non-empty and the parsed value
otherwise; with a zero-value connection and no override the five settings are
`"localhost:7233"`, `"default"`, `"local"`, `"5s"` and `""`. -/
theorem C3_connection_defaults (lib : Lib) (env : Env) (cfg : Config) :
    (applyEnvOverrides lib env cfg).Temporal.Namespace =
        (if Getenv env "TEMPORAL_NAMESPACE" ≠ "" then Getenv env "TEMPORAL_NAMESPACE"
         else if cfg.Temporal.Namespace ≠ "" then cfg.Temporal.Namespace
         else "default") ∧
      (applyEnvOverrides lib env cfg).Temporal.Timeout =
        (if Getenv env "TEMPORAL_TIMEOUT" ≠ "" then Getenv env "TEMPORAL_TIMEOUT"
         else if cfg.Temporal.Timeout ≠ "" then cfg.Temporal.Timeout
         else "5s") ∧
      (applyEnvOverrides lib env cfg).Temporal.DefaultTaskQueue =
        (if Getenv env "TEMPORAL_DEFAULT_TASK_QUEUE" ≠ "" then
           Getenv env "TEMPORAL_DEFAULT_TASK_QUEUE"
         else cfg.Temporal.DefaultTaskQueue) ∧
      (cfg.Temporal = TemporalConfig.zero →
        Getenv env "TEMPORAL_HOST_PORT" = "" → Getenv env "TEMPORAL_NAMESPACE" = "" →
        Getenv env "TEMPORAL_ENVIRONMENT" = "" → Getenv env "TEMPORAL_TIMEOUT" = "" →
        Getenv env "TEMPORAL_DEFAULT_TASK_QUEUE" = "" →
        (applyEnvOverrides lib env cfg).Temporal =
          { HostPort := "localhost:7233", Namespace := "default", Environment := "local",
            Timeout := "5s", DefaultTaskQueue := "" }) := by
  refine ⟨?_, ?_, ?_, ?_⟩
  · rw [applyEnvOverrides_Temporal]
  · rw [applyEnvOverrides_Temporal]
  · rw [applyEnvOverrides_Temporal]
  · intro hz h1 h2 h3 h4 h5
    rw [applyEnvOverrides_Temporal, hz, h1, h2, h3, h4, h5]
    simp [TemporalConfig.zero]

/-- C3 at a concrete input: the zero-value configuration in the empty environment. -/
theorem C3_connection_defaults_witness :
    (applyEnvOverrides rejecting emptyEnv Config.zero).Temporal =
      { HostPort := "localhost:7233", Namespace := "default", Environment := "local",
        Timeout := "5s", DefaultTaskQueue := "" } :=
  (C3_connection_defaults rejecting emptyEnv Config.zero).2.2.2 rfl rfl rfl rfl rfl rfl

/-! ## Source selection -/

/-- C4: when `TEMPORAL_MCP_CONFIG` is non-empty, `LoadConfig` gives the same result
for any two file systems, any two path arguments and any two values of
`TEMPORAL_MCP_CONFIG_FILE` (the rest of the environment being equal), and that
result is the inline value parsed and passed through `applyEnvOverrides`. -/
theorem C4_inline_reads_no_file (lib : Lib) (env₁ env₂ : Env) (fs₁ fs₂ : FileSystem)
    (path₁ path₂ : String)
    (hinline : Getenv env₁ "TEMPORAL_MCP_CONFIG" ≠ "")
    (hrest : ∀ k, k ≠ "TEMPORAL_MCP_CONFIG_FILE" → env₁ k = env₂ k) :
    LoadConfig lib env₁ fs₁ path₁ = LoadConfig lib env₂ fs₂ path₂ ∧
      LoadConfig lib env₁ fs₁ path₁ =
        (match lib.Unmarshal (bytesOf (Getenv env₁ "TEMPORAL_MCP_CONFIG")) Config.zero with
         | .error err => .error (.parseFailed err)
         | .ok c => .ok (applyEnvOverrides lib env₁ c)) := by
  have hcfg : Getenv env₂ "TEMPORAL_MCP_CONFIG" = Getenv env₁ "TEMPORAL_MCP_CONFIG" := by
    simp only [Getenv, hrest "TEMPORAL_MCP_CONFIG" (by decide)]
  have hinline₂ : Getenv env₂ "TEMPORAL_MCP_CONFIG" ≠ "" := by rw [hcfg]; exact hinline
  refine ⟨?_, LoadConfig_inline lib env₁ fs₁ path₁ hinline⟩
  rw [LoadConfig_inline lib env₁ fs₁ path₁ hinline,
    LoadConfig_inline lib env₂ fs₂ path₂ hinline₂, hcfg]
  cases lib.Unmarshal (bytesOf (Getenv env₁ "TEMPORAL_MCP_CONFIG")) Config.zero with
  | error err => rfl
  | ok c =>
    simp only
    rw [applyEnvOverrides_congr lib env₁ env₂ c (hrest _ (by decide)) (hrest _ (by decide))
      (hrest _ (by decide)) (hrest _ (by decide)) (hrest _ (by decide))]

/-- C4 at a concrete input: with an inline payload, a missing file at `a.yaml` and an
unreadable file at the overriding path `b.yaml` give the same result. -/
theorem C4_inline_reads_no_file_witness :
    LoadConfig (decodesTo Config.minimal)
        (setenv emptyEnv "TEMPORAL_MCP_CONFIG" "workflows:") noFiles "a.yaml" =
      LoadConfig (decodesTo Config.minimal)
        (setenv (setenv emptyEnv "TEMPORAL_MCP_CONFIG" "workflows:")
          "TEMPORAL_MCP_CONFIG_FILE" "b.yaml") deniedFiles "c.yaml" :=
  (C4_inline_reads_no_file (decodesTo Config.minimal)
    (setenv emptyEnv "TEMPORAL_MCP_CONFIG" "workflows:")
    (setenv (setenv emptyEnv "TEMPORAL_MCP_CONFIG" "workflows:")
      "TEMPORAL_MCP_CONFIG_FILE" "b.yaml")
    noFiles deniedFiles "a.yaml" "c.yaml" (by decide)
    (fun k hk => by simp [setenv, hk])).1

/-- C5: when `TEMPORAL_MCP_CONFIG` is empty or unset, the result of `LoadConfig` is a
function of what `os.ReadFile` answers at one path, `TEMPORAL_MCP_CONFIG_FILE` when
non-empty and the path argument otherwise; so with `TEMPORAL_MCP_CONFIG_FILE`
non-empty the path argument does not matter, and with it empty the file at the path
argument determines the result. -/
theorem C5_effective_path (lib : Lib) (env : Env) (fs₁ fs₂ : FileSystem)
    (path₁ path₂ : String)
    (hinline : Getenv env "TEMPORAL_MCP_CONFIG" = "") :
    configPath env path₁ =
        (if Getenv env "TEMPORAL_MCP_CONFIG_FILE" ≠ "" then
           Getenv env "TEMPORAL_MCP_CONFIG_FILE"
         else path₁) ∧
      LoadConfig lib env fs₁ path₁ =
        (match fs₁ (configPath env path₁) with
         | .ok data =>
           if data.length > 0 then
             match lib.Unmarshal data Config.zero with
             | .error err => .error (.parseFailed err)
             | .ok c => .ok (applyEnvOverrides lib env c)
           else .ok (applyEnvOverrides lib env Config.zero)
         | .error err =>
           if IsNotExist err then .ok (applyEnvOverrides lib env Config.minimal)
           else .error (.readFailed (configPath env path₁) err)) ∧
      (Getenv env "TEMPORAL_MCP_CONFIG_FILE" ≠ "" →
        fs₁ (Getenv env "TEMPORAL_MCP_CONFIG_FILE") =
          fs₂ (Getenv env "TEMPORAL_MCP_CONFIG_FILE") →
        LoadConfig lib env fs₁ path₁ = LoadConfig lib env fs₂ path₂) ∧
      (Getenv env "TEMPORAL_MCP_CONFIG_FILE" = "" → fs₁ path₁ = fs₂ path₁ →
        LoadConfig lib env fs₁ path₁ = LoadConfig lib env fs₂ path₁) := by
  refine ⟨rfl, LoadConfig_file lib env fs₁ path₁ hinline, ?_, ?_⟩
  · intro hfile hfs
    have hp₁ : configPath env path₁ = Getenv env "TEMPORAL_MCP_CONFIG_FILE" := by
      simp [configPath, hfile]
    have hp₂ : configPath env path₂ = Getenv env "TEMPORAL_MCP_CONFIG_FILE" := by
      simp [configPath, hfile]
    rw [LoadConfig_file lib env fs₁ path₁ hinline, LoadConfig_file lib env fs₂ path₂ hinline,
      hp₁, hp₂, hfs]
  · intro hfile hfs
    have hp₁ : configPath env path₁ = path₁ := by
      simp [configPath, hfile]
    rw [LoadConfig_file lib env fs₁ path₁ hinline, LoadConfig_file lib env fs₂ path₁ hinline,
      hp₁, hfs]

/-- C5 at a concrete input: with `TEMPORAL_MCP_CONFIG_FILE=b.yaml` the path arguments
`a.yaml` and `c.yaml` give the same result. -/
theorem C5_effective_path_witness :
    LoadConfig (decodesTo Config.minimal)
        (setenv emptyEnv "TEMPORAL_MCP_CONFIG_FILE" "b.yaml")
        (singleFile "b.yaml" [119, 58]) "a.yaml" =
      LoadConfig (decodesTo Config.minimal)
        (setenv emptyEnv "TEMPORAL_MCP_CONFIG_FILE" "b.yaml")
        (singleFile "b.yaml" [119, 58]) "c.yaml" :=
  (C5_effective_path (decodesTo Config.minimal)
    (setenv emptyEnv "TEMPORAL_MCP_CONFIG_FILE" "b.yaml")
    (singleFile "b.yaml" [119, 58]) (singleFile "b.yaml" [119, 58]) "a.yaml" "c.yaml"
    (by decide)).2.2.1 (by decide) rfl

/-! ## Read failures and parse failures -/

/-- C6: when `TEMPORAL_MCP_CONFIG` is empty or unset and the file at the effective
path does not exist, `LoadConfig` returns without error the defaulting pass applied
to the minimal configuration: no workflow, the connection being that of the
defaulting pass on the zero-value connection, with address `"localhost:7233"` when
`TEMPORAL_HOST_PORT` is empty or unset. -/
theorem C6_missing_file_fallback (lib : Lib) (env : Env) (fs : FileSystem) (path : String)
    (err : OsError)
    (hinline : Getenv env "TEMPORAL_MCP_CONFIG" = "")
    (hread : fs (configPath env path) = .error err)
    (hmissing : IsNotExist err = true) :
    LoadConfig lib env fs path = .ok (applyEnvOverrides lib env Config.minimal) ∧
      (applyEnvOverrides lib env Config.minimal).Workflows = GoMap.alloc [] ∧
      (applyEnvOverrides lib env Config.minimal).Workflows.len = 0 ∧
      (applyEnvOverrides lib env Config.minimal).Temporal =
        (applyEnvOverrides lib env Config.zero).Temporal ∧
      (Getenv env "TEMPORAL_HOST_PORT" = "" →
        (applyEnvOverrides lib env Config.minimal).Temporal.HostPort = "localhost:7233") := by
  refine ⟨?_, ?_, ?_, ?_, ?_⟩
  · rw [LoadConfig_file lib env fs path hinline, hread]
    simp [hmissing]
  · rw [applyEnvOverrides_Workflows]
    rfl
  · rw [applyEnvOverrides_Workflows]
    rfl
  · rw [applyEnvOverrides_Temporal, applyEnvOverrides_Temporal]
    rfl
  · intro hhp
    rw [applyEnvOverrides_HostPort, hhp]
    rfl

/-- C6 at a concrete input: no file, no variable. -/
theorem C6_missing_file_fallback_witness :
    LoadConfig rejecting emptyEnv noFiles "config.yml" =
      .ok (applyEnvOverrides rejecting emptyEnv Config.minimal) :=
  (C6_missing_file_fallback rejecting emptyEnv noFiles "config.yml"
    { msg := "no such file or directory", notExist := true } rfl rfl rfl).1

/-- C7: when `TEMPORAL_MCP_CONFIG` is empty or unset and reading the file at the
effective path fails with an error other than not-exist, `LoadConfig` returns no
configuration but the read error, which wraps the failure and whose text names the
effective path, whatever the other variables are. -/
theorem C7_read_error (lib : Lib) (env : Env) (fs : FileSystem) (path : String)
    (err : OsError)
    (hinline : Getenv env "TEMPORAL_MCP_CONFIG" = "")
    (hread : fs (configPath env path) = .error err)
    (hother : IsNotExist err = false) :
    LoadConfig lib env fs path = .error (.readFailed (configPath env path) err) ∧
      (LoadError.readFailed (configPath env path) err).Unwrap = some (.os err) ∧
      (LoadError.readFailed (configPath env path) err).Error =
        "failed to read config file " ++ configPath env path ++ ": " ++ err.msg ∧
      ∀ c, LoadConfig lib env fs path ≠ .ok c := by
  have hres : LoadConfig lib env fs path = .error (.readFailed (configPath env path) err) := by
    rw [LoadConfig_file lib env fs path hinline, hread]
    simp [hother]
  refine ⟨hres, rfl, rfl, ?_⟩
  intro c hc
  rw [hres] at hc
  cases hc

/-- C7 at a concrete input: the read of `config.yml` is denied while
`TEMPORAL_HOST_PORT` is set. -/
theorem C7_read_error_witness :
    LoadConfig rejecting (setenv emptyEnv "TEMPORAL_HOST_PORT" "temporal.internal:7233")
        deniedFiles "config.yml" =
      .error (.readFailed "config.yml" { msg := "permission denied", notExist := false }) :=
  (C7_read_error rejecting (setenv emptyEnv "TEMPORAL_HOST_PORT" "temporal.internal:7233")
    deniedFiles "config.yml" { msg := "permission denied", notExist := false }
    (by decide) rfl rfl).1

/-- C8: for a non-empty payload, taken from `TEMPORAL_MCP_CONFIG` or from a
successful file read, that the YAML decoder rejects, `LoadConfig` returns no
configuration but the parse error wrapping the decoder error, whatever the
connection variables are. -/
theorem C8_parse_error (lib : Lib) (env : Env) (fs : FileSystem) (path : String)
    (data : Bytes) (err : YamlError)
    (hsource : (Getenv env "TEMPORAL_MCP_CONFIG" ≠ "" ∧
          data = bytesOf (Getenv env "TEMPORAL_MCP_CONFIG")) ∨
        (Getenv env "TEMPORAL_MCP_CONFIG" = "" ∧ fs (configPath env path) = .ok data))
    (hne : data ≠ [])
    (hreject : lib.Unmarshal data Config.zero = .error err) :
    LoadConfig lib env fs path = .error (.parseFailed err) ∧
      (LoadError.parseFailed err).Unwrap = some (.yaml err) ∧
      (LoadError.parseFailed err).Error = "failed to parse config YAML: " ++ err.msg ∧
      ∀ c, LoadConfig lib env fs path ≠ .ok c := by
  have hres : LoadConfig lib env fs path = .error (.parseFailed err) := by
    rcases hsource with ⟨hinline, hdata⟩ | ⟨hinline, hread⟩
    · rw [LoadConfig_inline lib env fs path hinline, ← hdata, hreject]
    · have hlen : data.length > 0 := List.length_pos.mpr hne
      rw [LoadConfig_file lib env fs path hinline, hread]
      simp only [if_pos hlen, hreject]
  refine ⟨hres, rfl, rfl, ?_⟩
  intro c hc
  rw [hres] at hc
  cases hc

/-- C8 at a concrete input: a rejected inline payload while `TEMPORAL_HOST_PORT` is
set. -/
theorem C8_parse_error_witness :
    LoadConfig rejecting
        (setenv (setenv emptyEnv "TEMPORAL_HOST_PORT" "temporal.internal:7233")
          "TEMPORAL_MCP_CONFIG" "not: [valid yaml")
        noFiles "config.yml" =
      .error (.parseFailed { msg := "yaml: did not find expected node content" }) :=
  (C8_parse_error rejecting
    (setenv (setenv emptyEnv "TEMPORAL_HOST_PORT" "temporal.internal:7233")
      "TEMPORAL_MCP_CONFIG" "not: [valid yaml")
    noFiles "config.yml" (bytesOf "not: [valid yaml")
    { msg := "yaml: did not find expected node content" }
    (Or.inl ⟨by decide, rfl⟩)
    (List.length_pos.mp (bytesOf_length_pos "not: [valid yaml" (by decide)))
    rfl).1

/-! ## Validation and round trip -/

/-- C9: every configuration `LoadConfig` returns has a non-empty address; the result
of `LoadConfig` is the validation of the configuration left by the defaulting pass,
and that validation answers the host-port-required error, and no configuration,
whenever the address it is given is empty. -/
theorem C9_address_nonempty (lib : Lib) (env : Env) (fs : FileSystem) (path : String) :
    (∀ c, LoadConfig lib env fs path = .ok c → c.Temporal.HostPort ≠ "") ∧
      (∀ cfg data parsed, selectSource env fs path = .ok (cfg, data) →
        parseData lib cfg data = .ok parsed →
        LoadConfig lib env fs path = validateHostPort (applyEnvOverrides lib env parsed)) ∧
      (∀ cfg, cfg.Temporal.HostPort = "" →
        validateHostPort cfg = .error .hostPortRequired ∧
          LoadError.hostPortRequired.Error =
            "temporal hostPort is required (set via config or TEMPORAL_HOST_PORT env var)") ∧
      (∀ cfg c, validateHostPort cfg = .ok c → c = cfg ∧ c.Temporal.HostPort ≠ "") := by
  refine ⟨?_, ?_, ?_, ?_⟩
  · intro c hc
    unfold LoadConfig at hc
    cases hsel : selectSource env fs path with
    | error e => rw [hsel] at hc; cases hc
    | ok src =>
      obtain ⟨cfg, data⟩ := src
      rw [hsel] at hc
      simp only at hc
      cases hparse : parseData lib cfg data with
      | error e => rw [hparse] at hc; cases hc
      | ok parsed =>
        rw [hparse] at hc
        simp only [validateHostPort_applyEnvOverrides] at hc
        cases hc
        exact applyEnvOverrides_HostPort_ne lib env parsed
  · intro cfg data parsed hsel hparse
    unfold LoadConfig
    rw [hsel]
    simp only [hparse]
  · intro cfg hempty
    exact ⟨by simp [validateHostPort, hempty], rfl⟩
  · intro cfg c hok
    unfold validateHostPort at hok
    split_ifs at hok with h
    cases hok
    exact ⟨rfl, h⟩

/-- C9 at concrete inputs: the configuration returned when there is no file and no
variable has a non-empty address, and the validation rejects the zero-value
configuration. -/
theorem C9_address_nonempty_witness :
    (applyEnvOverrides rejecting emptyEnv Config.minimal).Temporal.HostPort ≠ "" ∧
      validateHostPort Config.zero = .error .hostPortRequired :=
  ⟨(C9_address_nonempty rejecting emptyEnv noFiles "config.yml").1
      (applyEnvOverrides rejecting emptyEnv Config.minimal) rfl,
    ((C9_address_nonempty rejecting emptyEnv noFiles "config.yml").2.2.1
      Config.zero rfl).1⟩

/-- C10: for a non-empty payload that the decoder decodes to `c`, inline or read
from the file, and with the five connection variables empty or unset, `LoadConfig`
succeeds with a configuration that has the workflows of `c` and the value of `c` in
every connection field that is non-empty in `c`. -/
theorem C10_round_trip (lib : Lib) (env : Env) (fs : FileSystem) (path : String)
    (data : Bytes) (c : Config)
    (hsource : (Getenv env "TEMPORAL_MCP_CONFIG" ≠ "" ∧
          data = bytesOf (Getenv env "TEMPORAL_MCP_CONFIG")) ∨
        (Getenv env "TEMPORAL_MCP_CONFIG" = "" ∧ fs (configPath env path) = .ok data))
    (hne : data ≠ [])
    (hdecode : lib.Unmarshal data Config.zero = .ok c)
    (h1 : Getenv env "TEMPORAL_HOST_PORT" = "")
    (h2 : Getenv env "TEMPORAL_NAMESPACE" = "")
    (h3 : Getenv env "TEMPORAL_ENVIRONMENT" = "")
    (h4 : Getenv env "TEMPORAL_TIMEOUT" = "")
    (h5 : Getenv env "TEMPORAL_DEFAULT_TASK_QUEUE" = "") :
    ∃ r, LoadConfig lib env fs path = .ok r ∧
      r.Workflows = c.Workflows ∧
      (c.Temporal.HostPort ≠ "" → r.Temporal.HostPort = c.Temporal.HostPort) ∧
      (c.Temporal.Namespace ≠ "" → r.Temporal.Namespace = c.Temporal.Namespace) ∧
      (c.Temporal.Environment ≠ "" → r.Temporal.Environment = c.Temporal.Environment) ∧
      (c.Temporal.Timeout ≠ "" → r.Temporal.Timeout = c.Temporal.Timeout) ∧
      (c.Temporal.DefaultTaskQueue ≠ "" →
        r.Temporal.DefaultTaskQueue = c.Temporal.DefaultTaskQueue) := by
  have hres : LoadConfig lib env fs path = .ok (applyEnvOverrides lib env c) := by
    rcases hsource with ⟨hinline, hdata⟩ | ⟨hinline, hread⟩
    · rw [LoadConfig_inline lib env fs path hinline, ← hdata, hdecode]
    · have hlen : data.length > 0 := List.length_pos.mpr hne
      rw [LoadConfig_file lib env fs path hinline, hread]
      simp only [if_pos hlen, hdecode]
  refine ⟨applyEnvOverrides lib env c, hres, applyEnvOverrides_Workflows lib env c, ?_⟩
  rw [applyEnvOverrides_Temporal, h1, h2, h3, h4, h5]
  refine ⟨?_, ?_, ?_, ?_, ?_⟩ <;> intro h <;> simp [h]

/-- C10 at a concrete input: a payload read from `config.yml` that decodes to
`sampleConfig`, no variable set. -/
theorem C10_round_trip_witness :
    ∃ r, LoadConfig (decodesTo sampleConfig) emptyEnv (singleFile "config.yml" [116, 58])
        "config.yml" = .ok r ∧
      r.Workflows = sampleConfig.Workflows ∧
      r.Temporal.HostPort = "temporal.internal:7233" ∧
      r.Temporal.Environment = "Production" ∧
      r.Temporal.DefaultTaskQueue = "orders" := by
  obtain ⟨r, hr, hw, hhp, _, henv, _, hq⟩ :=
    C10_round_trip (decodesTo sampleConfig) emptyEnv (singleFile "config.yml" [116, 58])
      "config.yml" [116, 58] sampleConfig (Or.inr ⟨rfl, rfl⟩) (by decide) rfl
      rfl rfl rfl rfl rfl
  exact ⟨r, hr, hw, hhp (by decide), henv (by decide), hq (by decide)⟩

/-! ## Inline configuration set, empty payloads -/

/-- C11, as stated, fails: there is no library, environment, file system and path
argument with `TEMPORAL_MCP_CONFIG` set and the file at the effective path missing
for which `LoadConfig` returns a read error. -/
theorem C11_read_error_with_inline_set_counterexample :
    ¬ ∃ (lib : Lib) (env : Env) (fs : FileSystem) (path v p : String)
        (err cause : OsError),
      env "TEMPORAL_MCP_CONFIG" = some v ∧ fs (configPath env path) = .error err ∧
        IsNotExist err = true ∧ LoadConfig lib env fs path = .error (.readFailed p cause) := by
  rintro ⟨lib, env, fs, path, v, p, err, cause, _, hread, hmissing, hres⟩
  obtain ⟨_, _, hcause, hother⟩ := (LoadConfig_readFailed_iff lib env fs path p cause).mp hres
  rw [hread] at hcause
  cases hcause
  rw [hmissing] at hother
  cases hother

/-- C11, amended: the read error, carrying the path and the underlying cause, is
returned exactly when `TEMPORAL_MCP_CONFIG` is empty or unset and the read of the
file at the effective path fails for a reason other than non-existence; when
`TEMPORAL_MCP_CONFIG` is set and that file does not exist, `LoadConfig` returns no
read error: a non-empty value is parsed and no file is read, an empty value takes
the missing-file fallback. -/
theorem C11_read_error_iff (lib : Lib) (env : Env) (fs : FileSystem) (path : String) :
    (∀ p cause, LoadConfig lib env fs path = .error (.readFailed p cause) ↔
        Getenv env "TEMPORAL_MCP_CONFIG" = "" ∧ p = configPath env path ∧
          fs (configPath env path) = .error cause ∧ IsNotExist cause = false) ∧
      (∀ v err, env "TEMPORAL_MCP_CONFIG" = some v →
        fs (configPath env path) = .error err → IsNotExist err = true →
        (∀ p cause, LoadConfig lib env fs path ≠ .error (.readFailed p cause)) ∧
          (v ≠ "" → LoadConfig lib env fs path =
            match lib.Unmarshal (bytesOf v) Config.zero with
            | .error yerr => .error (.parseFailed yerr)
            | .ok c => .ok (applyEnvOverrides lib env c)) ∧
          (v = "" → LoadConfig lib env fs path =
            .ok (applyEnvOverrides lib env Config.minimal))) := by
  refine ⟨fun p cause => LoadConfig_readFailed_iff lib env fs path p cause, ?_⟩
  intro v err hset hread hmissing
  have hget : Getenv env "TEMPORAL_MCP_CONFIG" = v := Getenv_set env _ v hset
  refine ⟨?_, ?_, ?_⟩
  · intro p cause hres
    obtain ⟨_, _, hcause, hother⟩ :=
      (LoadConfig_readFailed_iff lib env fs path p cause).mp hres
    rw [hread] at hcause
    cases hcause
    rw [hmissing] at hother
    cases hother
  · intro hv
    have hinline : Getenv env "TEMPORAL_MCP_CONFIG" ≠ "" := by rw [hget]; exact hv
    rw [LoadConfig_inline lib env fs path hinline, hget]
  · intro hv
    have hinline : Getenv env "TEMPORAL_MCP_CONFIG" = "" := by rw [hget]; exact hv
    rw [LoadConfig_file lib env fs path hinline, hread]
    simp [hmissing]

/-- C11, amended, at concrete inputs: with `TEMPORAL_MCP_CONFIG` set to the empty
string and no file, `LoadConfig` returns the fallback configuration; a denied read
gives the read error. -/
theorem C11_read_error_iff_witness :
    LoadConfig rejecting (setenv emptyEnv "TEMPORAL_MCP_CONFIG" "") noFiles "config.yml" =
        .ok (applyEnvOverrides rejecting (setenv emptyEnv "TEMPORAL_MCP_CONFIG" "")
          Config.minimal) ∧
      (Getenv emptyEnv "TEMPORAL_MCP_CONFIG" = "" ∧
        "config.yml" = configPath emptyEnv "config.yml" ∧
        deniedFiles (configPath emptyEnv "config.yml") =
          .error { msg := "permission denied", notExist := false } ∧
        IsNotExist { msg := "permission denied", notExist := false } = false) :=
  ⟨((C11_read_error_iff rejecting (setenv emptyEnv "TEMPORAL_MCP_CONFIG" "") noFiles
      "config.yml").2 "" { msg := "no such file or directory", notExist := true }
      rfl rfl rfl).2.2 rfl,
    ((C11_read_error_iff rejecting emptyEnv deniedFiles "config.yml").1 "config.yml"
      { msg := "permission denied", notExist := false }).mp rfl⟩

/-- C12: when `TEMPORAL_MCP_CONFIG` is empty or unset and the file at the effective
path is read successfully with zero bytes, `LoadConfig` returns without error
`applyEnvOverrides` of the zero-value configuration, which has no workflows, and
the result is the same for any two decoders. -/
theorem C12_empty_payload_skips_parsing (lib lib₂ : Lib) (env : Env) (fs : FileSystem)
    (path : String)
    (hinline : Getenv env "TEMPORAL_MCP_CONFIG" = "")
    (hread : fs (configPath env path) = .ok [])
    (hlower : lib₂.ToLower = lib.ToLower) :
    LoadConfig lib env fs path = .ok (applyEnvOverrides lib env Config.zero) ∧
      LoadConfig lib₂ env fs path = LoadConfig lib env fs path ∧
      (applyEnvOverrides lib env Config.zero).Workflows = GoMap.nil ∧
      (applyEnvOverrides lib env Config.zero).Workflows.len = 0 ∧
      (applyEnvOverrides lib env Config.zero).Temporal =
        { HostPort :=
            if Getenv env "TEMPORAL_HOST_PORT" ≠ "" then Getenv env "TEMPORAL_HOST_PORT"
            else "localhost:7233"
          Namespace :=
            if Getenv env "TEMPORAL_NAMESPACE" ≠ "" then Getenv env "TEMPORAL_NAMESPACE"
            else "default"
          Environment :=
            if Getenv env "TEMPORAL_ENVIRONMENT" ≠ "" then
              lib.ToLower (Getenv env "TEMPORAL_ENVIRONMENT")
            else "local"
          Timeout :=
            if Getenv env "TEMPORAL_TIMEOUT" ≠ "" then Getenv env "TEMPORAL_TIMEOUT"
            else "5s"
          DefaultTaskQueue := Getenv env "TEMPORAL_DEFAULT_TASK_QUEUE" } := by
  have hres : ∀ l : Lib, LoadConfig l env fs path = .ok (applyEnvOverrides l env Config.zero) := by
    intro l
    rw [LoadConfig_file l env fs path hinline, hread]
    simp
  have hT : ∀ l : Lib, l.ToLower = lib.ToLower →
      (applyEnvOverrides l env Config.zero).Temporal =
        (applyEnvOverrides lib env Config.zero).Temporal := by
    intro l hl
    rw [applyEnvOverrides_Temporal, applyEnvOverrides_Temporal, hl]
  refine ⟨hres lib, ?_, ?_, ?_, ?_⟩
  · rw [hres lib, hres lib₂]
    congr 1
    cases h₂ : applyEnvOverrides lib₂ env Config.zero
    cases h₁ : applyEnvOverrides lib env Config.zero
    have hT' := hT lib₂ hlower
    have hW : (applyEnvOverrides lib₂ env Config.zero).Workflows =
        (applyEnvOverrides lib env Config.zero).Workflows := by
      rw [applyEnvOverrides_Workflows, applyEnvOverrides_Workflows]
    rw [h₁, h₂] at hT' hW
    simp only at hT' hW
    rw [hT', hW]
  · rw [applyEnvOverrides_Workflows]
    rfl
  · rw [applyEnvOverrides_Workflows]
    rfl
  · rw [applyEnvOverrides_Temporal]
    simp only [Config.zero, TemporalConfig.zero, ne_eq, not_true_eq_false, if_false]
    congr 1
    split_ifs with h
    · exact h.symm
    · rfl

/-- C12 at a concrete input: an empty file at `config.yml`, with a decoder that
rejects everything and one that accepts everything. -/
theorem C12_empty_payload_skips_parsing_witness :
    LoadConfig rejecting emptyEnv (singleFile "config.yml" []) "config.yml" =
        .ok (applyEnvOverrides rejecting emptyEnv Config.zero) ∧
      LoadConfig (decodesTo sampleConfig) emptyEnv (singleFile "config.yml" [])
          "config.yml" =
        LoadConfig rejecting emptyEnv (singleFile "config.yml" []) "config.yml" :=
  ⟨(C12_empty_payload_skips_parsing rejecting (decodesTo sampleConfig) emptyEnv
      (singleFile "config.yml" []) "config.yml" rfl rfl rfl).1,
    (C12_empty_payload_skips_parsing rejecting (decodesTo sampleConfig) emptyEnv
      (singleFile "config.yml" []) "config.yml" rfl rfl rfl).2.1⟩

/-- C13: `TEMPORAL_MCP_CONFIG` set to the empty string gives the same result as
`TEMPORAL_MCP_CONFIG` unset, for every path argument, file system and remaining
environment; in particular both take the missing-file fallback. -/
theorem C13_empty_inline_is_unset (lib : Lib) (env₁ env₂ : Env) (fs : FileSystem)
    (path : String)
    (hset : env₁ "TEMPORAL_MCP_CONFIG" = some "")
    (hunset : env₂ "TEMPORAL_MCP_CONFIG" = none)
    (hrest : ∀ k, k ≠ "TEMPORAL_MCP_CONFIG" → env₁ k = env₂ k) :
    LoadConfig lib env₁ fs path = LoadConfig lib env₂ fs path ∧
      (∀ err, fs (configPath env₁ path) = .error err → IsNotExist err = true →
        LoadConfig lib env₁ fs path = .ok (applyEnvOverrides lib env₁ Config.minimal) ∧
          LoadConfig lib env₂ fs path = .ok (applyEnvOverrides lib env₁ Config.minimal)) := by
  have hget : ∀ k, Getenv env₁ k = Getenv env₂ k := by
    intro k
    by_cases hk : k = "TEMPORAL_MCP_CONFIG"
    · rw [hk, Getenv_set env₁ _ _ hset, Getenv_unset env₂ _ hunset]
    · simp only [Getenv, hrest k hk]
  have hsame := LoadConfig_congr_Getenv lib env₁ env₂ fs path hget
  refine ⟨hsame, ?_⟩
  intro err hread hmissing
  have hres : LoadConfig lib env₁ fs path =
      .ok (applyEnvOverrides lib env₁ Config.minimal) := by
    rw [LoadConfig_file lib env₁ fs path (Getenv_set env₁ _ _ hset), hread]
    simp [hmissing]
  exact ⟨hres, by rw [← hsame]; exact hres⟩

/-- C13 at a concrete input: no file, `TEMPORAL_MCP_CONFIG` set to the empty string
against the empty environment. -/
theorem C13_empty_inline_is_unset_witness :
    LoadConfig rejecting (setenv emptyEnv "TEMPORAL_MCP_CONFIG" "") noFiles "config.yml" =
      LoadConfig rejecting emptyEnv noFiles "config.yml" :=
  (C13_empty_inline_is_unset rejecting (setenv emptyEnv "TEMPORAL_MCP_CONFIG" "") emptyEnv
    noFiles "config.yml" rfl rfl (fun k hk => by simp [setenv, emptyEnv, hk])).1

/-! ## Failure cases, non-empty settings and the frame of the defaulting pass -/

/-- C14: `LoadConfig` fails exactly when `TEMPORAL_MCP_CONFIG` is empty or unset and
the read of the effective file fails for a reason other than non-existence, or when
a non-empty payload was obtained and the decoder rejects it; otherwise it returns a
configuration; the host-port-required error is never returned. -/
theorem C14_failure_cases (lib : Lib) (env : Env) (fs : FileSystem) (path : String) :
    ((∃ e, LoadConfig lib env fs path = .error e) ↔
        (Getenv env "TEMPORAL_MCP_CONFIG" = "" ∧
          ∃ err, fs (configPath env path) = .error err ∧ IsNotExist err = false) ∨
        (∃ data yerr,
          ((Getenv env "TEMPORAL_MCP_CONFIG" ≠ "" ∧
              data = bytesOf (Getenv env "TEMPORAL_MCP_CONFIG")) ∨
            (Getenv env "TEMPORAL_MCP_CONFIG" = "" ∧
              fs (configPath env path) = .ok data)) ∧
          data ≠ [] ∧ lib.Unmarshal data Config.zero = .error yerr)) ∧
      ((∃ c, LoadConfig lib env fs path = .ok c) ↔
        ¬ ((Getenv env "TEMPORAL_MCP_CONFIG" = "" ∧
            ∃ err, fs (configPath env path) = .error err ∧ IsNotExist err = false) ∨
          (∃ data yerr,
            ((Getenv env "TEMPORAL_MCP_CONFIG" ≠ "" ∧
                data = bytesOf (Getenv env "TEMPORAL_MCP_CONFIG")) ∨
              (Getenv env "TEMPORAL_MCP_CONFIG" = "" ∧
                fs (configPath env path) = .ok data)) ∧
            data ≠ [] ∧ lib.Unmarshal data Config.zero = .error yerr))) ∧
      LoadConfig lib env fs path ≠ .error .hostPortRequired := by
  have hfail : (∃ e, LoadConfig lib env fs path = .error e) ↔
      (Getenv env "TEMPORAL_MCP_CONFIG" = "" ∧
        ∃ err, fs (configPath env path) = .error err ∧ IsNotExist err = false) ∨
      (∃ data yerr,
        ((Getenv env "TEMPORAL_MCP_CONFIG" ≠ "" ∧
            data = bytesOf (Getenv env "TEMPORAL_MCP_CONFIG")) ∨
          (Getenv env "TEMPORAL_MCP_CONFIG" = "" ∧
            fs (configPath env path) = .ok data)) ∧
        data ≠ [] ∧ lib.Unmarshal data Config.zero = .error yerr) := by
    constructor
    · rintro ⟨e, he⟩
      by_cases hinline : Getenv env "TEMPORAL_MCP_CONFIG" = ""
      · rw [LoadConfig_file lib env fs path hinline] at he
        cases hread : fs (configPath env path) with
        | ok data =>
          rw [hread] at he
          simp only at he
          by_cases hd : data.length > 0
          · rw [if_pos hd] at he
            cases hparse : lib.Unmarshal data Config.zero with
            | error yerr =>
              exact Or.inr ⟨data, yerr, Or.inr ⟨hinline, rfl⟩, List.length_pos.mp hd, hparse⟩
            | ok c => rw [hparse] at he; cases he
          · rw [if_neg hd] at he
            cases he
        | error err =>
          rw [hread] at he
          simp only at he
          by_cases hn : IsNotExist err = true
          · rw [if_pos hn] at he
            cases he
          · exact Or.inl ⟨hinline, err, rfl, by simpa using hn⟩
      · rw [LoadConfig_inline lib env fs path hinline] at he
        cases hparse :
            lib.Unmarshal (bytesOf (Getenv env "TEMPORAL_MCP_CONFIG")) Config.zero with
        | error yerr =>
          exact Or.inr ⟨_, yerr, Or.inl ⟨hinline, rfl⟩,
            List.length_pos.mp (bytesOf_length_pos _ hinline), hparse⟩
        | ok c => rw [hparse] at he; cases he
    · rintro (⟨hinline, err, hread, hother⟩ | ⟨data, yerr, hsrc, hne, hrej⟩)
      · refine ⟨.readFailed (configPath env path) err, ?_⟩
        rw [LoadConfig_file lib env fs path hinline, hread]
        simp [hother]
      · refine ⟨.parseFailed yerr, ?_⟩
        rcases hsrc with ⟨hinline, hdata⟩ | ⟨hinline, hread⟩
        · rw [LoadConfig_inline lib env fs path hinline, ← hdata, hrej]
        · have hlen : data.length > 0 := List.length_pos.mpr hne
          rw [LoadConfig_file lib env fs path hinline, hread]
          simp only [if_pos hlen, hrej]
  have hok : (∃ c, LoadConfig lib env fs path = .ok c) ↔
      ¬ ∃ e, LoadConfig lib env fs path = .error e := by
    cases LoadConfig lib env fs path with
    | error e => simp
    | ok c => simp
  refine ⟨hfail, ?_, ?_⟩
  · rw [hok, hfail]
  · intro hres
    by_cases hinline : Getenv env "TEMPORAL_MCP_CONFIG" = ""
    · rw [LoadConfig_file lib env fs path hinline] at hres
      cases hread : fs (configPath env path) with
      | ok data =>
        rw [hread] at hres
        simp only at hres
        by_cases hd : data.length > 0
        · rw [if_pos hd] at hres
          cases hparse : lib.Unmarshal data Config.zero with
          | error yerr => rw [hparse] at hres; cases hres
          | ok c => rw [hparse] at hres; cases hres
        · rw [if_neg hd] at hres
          cases hres
      | error err =>
        rw [hread] at hres
        simp only at hres
        by_cases hn : IsNotExist err = true
        · rw [if_pos hn] at hres
          cases hres
        · rw [if_neg hn] at hres
          cases hres
    · rw [LoadConfig_inline lib env fs path hinline] at hres
      cases hparse :
          lib.Unmarshal (bytesOf (Getenv env "TEMPORAL_MCP_CONFIG")) Config.zero with
      | error yerr => rw [hparse] at hres; cases hres
      | ok c => rw [hparse] at hres; cases hres

/-- C14 at concrete inputs: a denied read makes `LoadConfig` fail, and without any
file or variable the host-port-required error is not returned. -/
theorem C14_failure_cases_witness :
    (∃ e, LoadConfig rejecting emptyEnv deniedFiles "config.yml" = .error e) ∧
      LoadConfig rejecting emptyEnv noFiles "config.yml" ≠ .error .hostPortRequired :=
  ⟨(C14_failure_cases rejecting emptyEnv deniedFiles "config.yml").1.mpr
      (Or.inl ⟨rfl, { msg := "permission denied", notExist := false }, rfl, rfl⟩),
    (C14_failure_cases rejecting emptyEnv noFiles "config.yml").2.2⟩

/-- C15: after `applyEnvOverrides` the namespace and the timeout are non-empty, and so
is the environment name provided lower-casing a non-empty string gives a non-empty
string; hence every configuration `LoadConfig` returns has a non-empty address,
namespace, timeout and, under the same proviso, environment name, while the default
task queue of a returned configuration can be empty. -/
theorem C15_settings_nonempty (lib : Lib) (env : Env) (cfg : Config)
    (hlower : ∀ s, s ≠ "" → lib.ToLower s ≠ "") :
    (applyEnvOverrides lib env cfg).Temporal.Namespace ≠ "" ∧
      (applyEnvOverrides lib env cfg).Temporal.Environment ≠ "" ∧
      (applyEnvOverrides lib env cfg).Temporal.Timeout ≠ "" ∧
      (∀ fs path r, LoadConfig lib env fs path = .ok r →
        r.Temporal.HostPort ≠ "" ∧ r.Temporal.Namespace ≠ "" ∧
          r.Temporal.Environment ≠ "" ∧ r.Temporal.Timeout ≠ "") ∧
      (∃ env₀ fs path r, LoadConfig lib env₀ fs path = .ok r ∧
        r.Temporal.DefaultTaskQueue = "") := by
  have hne := applyEnvOverrides_nonempty lib env
  refine ⟨(hne cfg).1, (hne cfg).2.2 hlower, (hne cfg).2.1, ?_, ?_⟩
  · intro fs path r hr
    have hform : ∃ c, r = applyEnvOverrides lib env c := by
      rcases LoadConfig_ok_cases lib env fs path r hr with
        ⟨_, parsed, _, _, _, h⟩ | ⟨_, _, h⟩ | ⟨_, _, h⟩
      · exact ⟨parsed, h⟩
      · exact ⟨Config.zero, h⟩
      · exact ⟨Config.minimal, h⟩
    obtain ⟨c, hc⟩ := hform
    rw [hc]
    exact ⟨applyEnvOverrides_HostPort_ne lib env c, (hne c).1, (hne c).2.2 hlower,
      (hne c).2.1⟩
  · refine ⟨emptyEnv, noFiles, "config.yml", applyEnvOverrides lib emptyEnv Config.minimal,
      ?_, ?_⟩
    · rw [LoadConfig_file lib emptyEnv noFiles "config.yml" rfl]
      rfl
    · rw [applyEnvOverrides_Temporal]
      rfl

/-- C15 at a concrete input: ASCII lower-casing, `TEMPORAL_ENVIRONMENT=PROD`, the
zero-value configuration. -/
theorem C15_settings_nonempty_witness :
    (applyEnvOverrides rejecting (setenv emptyEnv "TEMPORAL_ENVIRONMENT" "PROD")
        Config.zero).Temporal.Environment ≠ "" ∧
      (applyEnvOverrides rejecting (setenv emptyEnv "TEMPORAL_ENVIRONMENT" "PROD")
        Config.zero).Temporal.Environment = "prod" :=
  ⟨(C15_settings_nonempty rejecting (setenv emptyEnv "TEMPORAL_ENVIRONMENT" "PROD")
      Config.zero asciiToLower_ne).2.1, by decide⟩

/-- C16: `applyEnvOverrides` leaves the workflow mapping as it is, so the workflows of
a configuration `LoadConfig` returns are those the decoder produced from the
non-empty payload, or an empty mapping when nothing was decoded. -/
theorem C16_workflows_frame (lib : Lib) (env : Env) (cfg : Config) :
    (applyEnvOverrides lib env cfg).Workflows = cfg.Workflows ∧
      (∀ fs path r, LoadConfig lib env fs path = .ok r →
        (∃ data parsed,
            ((Getenv env "TEMPORAL_MCP_CONFIG" ≠ "" ∧
                data = bytesOf (Getenv env "TEMPORAL_MCP_CONFIG")) ∨
              (Getenv env "TEMPORAL_MCP_CONFIG" = "" ∧
                fs (configPath env path) = .ok data)) ∧
            data ≠ [] ∧ lib.Unmarshal data Config.zero = .ok parsed ∧
            r.Workflows = parsed.Workflows) ∨
          (Getenv env "TEMPORAL_MCP_CONFIG" = "" ∧
            (fs (configPath env path) = .ok [] ∨
              ∃ err, fs (configPath env path) = .error err ∧ IsNotExist err = true) ∧
            r.Workflows.len = 0)) := by
  refine ⟨applyEnvOverrides_Workflows lib env cfg, ?_⟩
  intro fs path r hr
  rcases LoadConfig_ok_cases lib env fs path r hr with
    ⟨data, parsed, hsrc, hne, hparse, h⟩ | ⟨hinline, hread, h⟩ | ⟨hinline, hread, h⟩
  · refine Or.inl ⟨data, parsed, hsrc, hne, hparse, ?_⟩
    rw [h, applyEnvOverrides_Workflows]
  · refine Or.inr ⟨hinline, Or.inl hread, ?_⟩
    rw [h, applyEnvOverrides_Workflows]
    rfl
  · refine Or.inr ⟨hinline, Or.inr hread, ?_⟩
    rw [h, applyEnvOverrides_Workflows]
    rfl

/-- C16 at a concrete input: with `TEMPORAL_NAMESPACE` and `TEMPORAL_HOST_PORT` set,
the workflows of `sampleConfig` are unchanged. -/
theorem C16_workflows_frame_witness :
    (applyEnvOverrides rejecting
        (setenv (setenv emptyEnv "TEMPORAL_NAMESPACE" "prod") "TEMPORAL_HOST_PORT" "h:1")
        sampleConfig).Workflows = sampleConfig.Workflows :=
  (C16_workflows_frame rejecting
    (setenv (setenv emptyEnv "TEMPORAL_NAMESPACE" "prod") "TEMPORAL_HOST_PORT" "h:1")
    sampleConfig).1

end TemporalMcp
